import Mathlib

/-!
Shallow embedding of the mocker repository's query/pagination/filter/sort
core (`src/mocker/utils.py` and the list endpoints of
`src/mocker/routers/users.py` / `src/mocker/routers/tasks.py`), together
with theorems settling the specification's claims about it.

Records returned by the SQLAlchemy query objects are modelled as Lean
lists; `query.count()` is the list length, `query.offset(o).limit(n).all()`
is `(List.drop o) ∘ (List.take n)` (offset and limit are modelled for
non-negative arguments via `Int.toNat`; every theorem below applies them at
non-negative offsets and limits only).
-/

namespace Mocker

/-- Embedding of `paginate_query` from `utils.py` (source defaults:
`page = 1`, `page_size = 10`, `max_page_size = 100`).  The function clamps
an oversized `page_size` down to `max_page_size`, clamps `page` up to 1,
computes `offset = (page - 1) * page_size`, and returns the
offset/limit slice together with the unsliced total count. -/
def paginate_query {α : Type} (query : List α) (page : Int) (page_size : Int)
    (max_page_size : Int) : List α × Nat :=
  let ps := if page_size > max_page_size then max_page_size else page_size
  let p := if page < 1 then 1 else page
  let offset := (p - 1) * ps
  ((query.drop offset.toNat).take ps.toNat, query.length)

theorem paginate_query_snd {α : Type} (R : List α) (p s m : Int) :
    (paginate_query R p s m).2 = R.length := rfl

theorem paginate_query_in_range_eq {α : Type} (R : List α) (p s : Int)
    (hp : 1 ≤ p) (hsmax : s ≤ 100) :
    paginate_query R p s 100 = ((R.drop ((p - 1) * s).toNat).take s.toNat, R.length) := by
  simp only [paginate_query]
  rw [if_neg (by omega : ¬ s > 100), if_neg (by omega : ¬ p < 1)]

/-- C1: for page `p ≥ 1` and page size `1 ≤ s ≤ 100` (the configured
maximum), `paginate_query` returns the contiguous slice of `R` starting at
offset `(p-1)*s`, of length `min s (len R - (p-1)*s)` (truncated
subtraction realises `max 0 _`), with total `len R`; a page past the end
yields an empty slice, and the total component never depends on the page
or the page size. -/
theorem C1_paginate_in_range {α : Type} (R : List α) (p s : Int)
    (hp : 1 ≤ p) (_hs1 : 1 ≤ s) (hsmax : s ≤ 100) :
    (paginate_query R p s 100).1 = (R.drop ((p - 1) * s).toNat).take s.toNat ∧
    ((paginate_query R p s 100).1).length
      = min s.toNat (R.length - ((p - 1) * s).toNat) ∧
    (paginate_query R p s 100).2 = R.length ∧
    (R.length ≤ ((p - 1) * s).toNat → (paginate_query R p s 100).1 = []) ∧
    (∀ p2 s2 : Int, (paginate_query R p2 s2 100).2 = R.length) := by
  have h1 := paginate_query_in_range_eq R p s hp hsmax
  refine ⟨by rw [h1], ?_, rfl, ?_, fun p2 s2 => rfl⟩
  · rw [h1]
    simp [List.length_take, List.length_drop]
  · intro hbeyond
    rw [h1]
    simp [List.drop_eq_nil_of_le hbeyond]

theorem C1_paginate_in_range_witness :
    (1 ≤ (2 : Int) ∧ 1 ≤ (2 : Int) ∧ (2 : Int) ≤ 100) ∧
    paginate_query ([10, 20, 30, 40, 50] : List Int) 2 2 100 = ([30, 40], 5) := by
  have h := C1_paginate_in_range ([10, 20, 30, 40, 50] : List Int) 2 2
    (by decide) (by decide) (by decide)
  refine ⟨⟨by decide, by decide, by decide⟩, ?_⟩
  have hpair : paginate_query ([10, 20, 30, 40, 50] : List Int) 2 2 100
      = ((paginate_query ([10, 20, 30, 40, 50] : List Int) 2 2 100).1,
         (paginate_query ([10, 20, 30, 40, 50] : List Int) 2 2 100).2) := rfl
  rw [hpair, h.1, h.2.2.1]
  decide

/-- C2 counterexample: with page size 0 (below 1) the paginator does not
behave like page size 1 — the requested size is used unclamped, so the
slice is empty while size 1 would return the first record. -/
theorem C2_counterexample :
    ¬ (paginate_query ([10] : List Int) 1 0 100
        = paginate_query ([10] : List Int) 1 1 100) := by
  decide

/-- C2 amended: the paginator clamps page numbers below 1 up to 1 and page
sizes above the maximum down to the maximum, but a page size below 1 is
not clamped to the nearest valid value: page size 0 is used as-is and
yields an empty slice for every page, with the total still `len R`. -/
theorem C2_amended_size_zero_unclamped {α : Type} (R : List α) (p : Int) :
    paginate_query R p 0 100 = ([], R.length) := by
  simp [paginate_query]

/-- C7: clamping equivalences — a page number below 1 behaves exactly like
page 1, and a page size above the configured maximum behaves exactly like
the maximum. -/
theorem C7_paginate_clamps {α : Type} (R : List α) :
    (∀ p s : Int, p ≤ 0 → 1 ≤ s → s ≤ 100 →
      paginate_query R p s 100 = paginate_query R 1 s 100) ∧
    (∀ p s : Int, 100 < s →
      paginate_query R p s 100 = paginate_query R p 100 100) := by
  constructor
  · intro p s hp hs1 hs2
    simp only [paginate_query]
    rw [if_pos (by omega : p < 1), if_neg (by omega : ¬ (1 : Int) < 1)]
  · intro p s hs
    simp only [paginate_query]
    rw [if_pos (by omega : s > 100), if_neg (by omega : ¬ (100 : Int) > 100)]

theorem C7_paginate_clamps_witness :
    ((0 : Int) ≤ 0 ∧ 1 ≤ (2 : Int) ∧ (2 : Int) ≤ 100 ∧
      paginate_query ([1, 2, 3] : List Int) 0 2 100
        = paginate_query ([1, 2, 3] : List Int) 1 2 100) ∧
    (100 < (150 : Int) ∧
      paginate_query ([1, 2, 3] : List Int) 1 150 100
        = paginate_query ([1, 2, 3] : List Int) 1 100 100) :=
  ⟨⟨by decide, by decide, by decide,
      (C7_paginate_clamps ([1, 2, 3] : List Int)).1 0 2 (by decide) (by decide) (by decide)⟩,
    ⟨by decide,
      (C7_paginate_clamps ([1, 2, 3] : List Int)).2 1 150 (by decide)⟩⟩

/-- Python `str.lower()`, modelled characterwise (ASCII data throughout
this repository). -/
def pyLower (s : String) : String :=
  String.mk (s.data.map Char.toLower)

/-- Embedding of the SQL `ILIKE` pattern applied by the routers: the
column value contains the search term, compared case-insensitively.  This
models the external `Column.ilike` capability as applied to patterns of
the shape percent-term-percent. -/
def ilike (column : String) (term : String) : Bool :=
  decide ((pyLower term).data <:+: (pyLower column).data)

/-- Version of `ilike` for nullable columns: a NULL column never matches. -/
def optIlike (column : Option String) (term : String) : Bool :=
  match column with
  | Option.none => false
  | some c => ilike c term

/-- One `if <active>: query = query.filter(pred)` step of a router. -/
def applyFilterIf {α : Type} (active : Bool) (pred : α → Bool) (l : List α) : List α :=
  if active then l.filter pred else l

/-- Python truthiness of an optional string request argument: active iff
present and non-empty (`if x:` / `if x and isinstance(x, str):`). -/
def optActive : Option String → Bool
  | Option.none => false
  | some s => s != ""

/-- Activation test of the users search term, from
`if search and isinstance(search, str) and search.strip():` — the term
must be non-empty and non-whitespace. -/
def searchOptActive : Option String → Bool
  | Option.none => false
  | some s => s != "" && s.trim != ""

/-- Activation test of an optional enum-typed query argument (a present
enum value is always truthy in Python). -/
def enumActive : Option String → Bool
  | Option.none => false
  | some _ => true

/-- A row of the `users` table, restricted to the columns the list
endpoint filters on (`models.py`); `phoneNumber` is nullable. -/
structure UserRec where
  id : String
  firstName : String
  lastName : String
  username : String
  email : String
  phoneNumber : Option String
  status : String
  role : String
deriving DecidableEq, Repr

/-- A row of the `tasks` table, restricted to the columns the list
endpoint filters on (`models.py`); `description` and `assignee` are
nullable. -/
structure TaskRec where
  id : String
  title : String
  description : Option String
  status : String
  label : String
  priority : String
  assignee : Option String
deriving DecidableEq, Repr

/-- The optional filter arguments the users list endpoint extracts from
the request object (`routers/users.py`, `get_users`). -/
structure UserCriteria where
  search : Option String
  username : Option String
  phoneNumber : Option String
  status : Option String
  role : Option String
deriving DecidableEq, Repr

/-- The optional filter arguments of the tasks list endpoint
(`routers/tasks.py`, `get_tasks`); `status`, `label` and `priority` are
enum-typed query parameters. -/
structure TaskCriteria where
  search : Option String
  status : Option String
  label : Option String
  priority : Option String
  assignee : Option String
deriving DecidableEq, Repr

/-- The OR of the five `ilike` clauses of the users search filter. -/
def userSearchFilter (term : String) (u : UserRec) : Bool :=
  ilike u.firstName term || ilike u.lastName term || ilike u.username term ||
    ilike u.email term || optIlike u.phoneNumber term

/-- The OR of the three `ilike` clauses of the tasks search filter. -/
def taskSearchFilter (term : String) (t : TaskRec) : Bool :=
  ilike t.title term || optIlike t.description term || ilike t.id term

/-- The successive conditional filters of `get_users` in
`routers/users.py` (search, then status, role, username, phoneNumber;
each an exact equality except the search, which is the `ilike` OR). -/
def get_users_filter (c : UserCriteria) (query : List UserRec) : List UserRec :=
  applyFilterIf (optActive c.phoneNumber)
      (fun u => u.phoneNumber == some (c.phoneNumber.getD ("")))
    (applyFilterIf (optActive c.username) (fun u => u.username == c.username.getD (""))
      (applyFilterIf (optActive c.role) (fun u => u.role == c.role.getD (""))
        (applyFilterIf (optActive c.status) (fun u => u.status == c.status.getD (""))
          (applyFilterIf (searchOptActive c.search)
            (userSearchFilter (c.search.getD (""))) query))))

/-- The successive conditional filters of `get_tasks` in
`routers/tasks.py` (search, then status, label, priority, assignee). -/
def get_tasks_filter (c : TaskCriteria) (query : List TaskRec) : List TaskRec :=
  applyFilterIf (optActive c.assignee)
      (fun t => t.assignee == some (c.assignee.getD ("")))
    (applyFilterIf (enumActive c.priority) (fun t => t.priority == c.priority.getD (""))
      (applyFilterIf (enumActive c.label) (fun t => t.label == c.label.getD (""))
        (applyFilterIf (enumActive c.status) (fun t => t.status == c.status.getD (""))
          (applyFilterIf (optActive c.search)
            (taskSearchFilter (c.search.getD (""))) query))))

/-- Conjunction of the active user criteria: each inactive criterion is
vacuously satisfied, an active one must hold on the record. -/
def userMatches (c : UserCriteria) (u : UserRec) : Bool :=
  (!(searchOptActive c.search) || userSearchFilter (c.search.getD ("")) u) &&
    (!(optActive c.status) || u.status == c.status.getD ("")) &&
    (!(optActive c.role) || u.role == c.role.getD ("")) &&
    (!(optActive c.username) || u.username == c.username.getD ("")) &&
    (!(optActive c.phoneNumber) || u.phoneNumber == some (c.phoneNumber.getD ("")))

/-- Conjunction of the active task criteria. -/
def taskMatches (c : TaskCriteria) (t : TaskRec) : Bool :=
  (!(optActive c.search) || taskSearchFilter (c.search.getD ("")) t) &&
    (!(enumActive c.status) || t.status == c.status.getD ("")) &&
    (!(enumActive c.label) || t.label == c.label.getD ("")) &&
    (!(enumActive c.priority) || t.priority == c.priority.getD ("")) &&
    (!(optActive c.assignee) || t.assignee == some (c.assignee.getD ("")))

theorem applyFilterIf_sublist {α : Type} (active : Bool) (pred : α → Bool)
    (l : List α) : (applyFilterIf active pred l).Sublist l := by
  cases active
  · exact List.Sublist.refl l
  · simp only [applyFilterIf, if_pos]
    exact List.filter_sublist l

theorem mem_applyFilterIf {α : Type} {x : α} {active : Bool} {pred : α → Bool}
    {l : List α} :
    x ∈ applyFilterIf active pred l ↔ x ∈ l ∧ (!active || pred x) = true := by
  cases active <;> simp [applyFilterIf, List.mem_filter]

/-- C3: each list endpoint's filter chain returns a subsequence of the
input preserving relative order, and a record is kept iff it satisfies
every active criterion — exact-match criteria by case-sensitive equality,
the search term by the OR of case-insensitive substring matches over the
fixed searchable field lists, all active criteria combined by AND. -/
theorem C3_filter_subsequence_and_criteria (cu : UserCriteria) (Ru : List UserRec)
    (ct : TaskCriteria) (Rt : List TaskRec) :
    (get_users_filter cu Ru).Sublist Ru ∧
    (∀ u, u ∈ get_users_filter cu Ru ↔ u ∈ Ru ∧ userMatches cu u = true) ∧
    (get_tasks_filter ct Rt).Sublist Rt ∧
    (∀ t, t ∈ get_tasks_filter ct Rt ↔ t ∈ Rt ∧ taskMatches ct t = true) := by
  refine ⟨?_, ?_, ?_, ?_⟩
  · exact ((((applyFilterIf_sublist _ _ _).trans
      (applyFilterIf_sublist _ _ _)).trans
      (applyFilterIf_sublist _ _ _)).trans
      (applyFilterIf_sublist _ _ _)).trans
      (applyFilterIf_sublist _ _ _)
  · intro u
    simp only [get_users_filter, mem_applyFilterIf, userMatches, Bool.and_eq_true]
    tauto
  · exact ((((applyFilterIf_sublist _ _ _).trans
      (applyFilterIf_sublist _ _ _)).trans
      (applyFilterIf_sublist _ _ _)).trans
      (applyFilterIf_sublist _ _ _)).trans
      (applyFilterIf_sublist _ _ _)
  · intro t
    simp only [get_tasks_filter, mem_applyFilterIf, taskMatches, Bool.and_eq_true]
    tauto

/-- C4: with no active criteria (all absent, or present but empty where a
string is accepted) both filter chains are the identity in content and
order. -/
theorem C4_empty_criteria_identity (Ru : List UserRec) (Rt : List TaskRec) :
    get_users_filter ⟨Option.none, Option.none, Option.none, Option.none, Option.none⟩ Ru = Ru ∧
    get_users_filter ⟨some (""), some (""), some (""), some (""), some ("")⟩ Ru = Ru ∧
    get_tasks_filter ⟨Option.none, Option.none, Option.none, Option.none, Option.none⟩ Rt = Rt ∧
    get_tasks_filter ⟨some (""), Option.none, Option.none, Option.none, some ("")⟩ Rt = Rt := by
  refine ⟨rfl, ?_, rfl, ?_⟩
  · simp [get_users_filter, applyFilterIf, optActive, searchOptActive]
  · simp [get_tasks_filter, applyFilterIf, optActive, enumActive]

/-- Sort direction resolved by `build_order_by`: `column.asc()` or
`column.desc()`. -/
inductive SortDir
  | asc
  | desc
deriving DecidableEq, Repr

/-- The column attributes of the `User` model in `models.py`.  The
declarative class also carries non-column class attributes (table name,
metadata, registry, inherited object attributes); those are modelled
separately below via `ModelAttr`/`ModelEnv`. -/
def userModelFields : List String :=
  ["id", "firstName", "lastName", "username", "email", "phoneNumber",
    "hashedPassword", "status", "role", "createdAt", "updatedAt"]

/-- Embedding of `getattr(model, name, None)` restricted to the column
attributes: the column when `name` is one, `None` otherwise.  This is
exact when `name` is a column or not an attribute of the class at all;
the `ModelEnv`-based `build_order_byE` below additionally models the
non-column class attributes, on which the source raises instead of
falling back.  The theorems stated over this restricted lookup
(`C6_direction_parsing`) apply it on column names only. -/
def getattrOrNone (model : List String) (name : String) : Option String :=
  if name ∈ model then some name else Option.none

/-- Embedding of `build_order_by` from `utils.py` (source defaults:
`sort_by = None`, `sort_order = "asc"`): a falsy `sort_by` (absent or
empty) or an unknown attribute yields no ordering; otherwise the
direction is descending exactly when `sort_order.lower() == "desc"`. -/
def build_order_by (model : List String) (sort_by : Option String)
    (sort_order : String) : Option (String × SortDir) :=
  match sort_by with
  | Option.none => Option.none
  | some sb =>
    if sb = "" then Option.none
    else
      match getattrOrNone model sb with
      | Option.none => Option.none
      | some column =>
        if pyLower sort_order = "desc" then some (column, SortDir.desc)
        else some (column, SortDir.asc)

/-- The value of a `User` column used as a sort key (nullable columns sort
by their value with NULL as the empty string; columns outside the record
model sort by a constant, leaving order unchanged up to stability). -/
def userKey (col : String) (u : UserRec) : String :=
  if col = "id" then u.id
  else if col = "firstName" then u.firstName
  else if col = "lastName" then u.lastName
  else if col = "username" then u.username
  else if col = "email" then u.email
  else if col = "phoneNumber" then u.phoneNumber.getD ("")
  else if col = "status" then u.status
  else if col = "role" then u.role
  else ("")

/-- The ordering step of a list endpoint: `query.order_by(order_by)` when
`build_order_by` produced a comparator, the untouched query otherwise
(`if order_by is not None` in `routers/users.py`). -/
def applyOrder {α : Type} (keyOf : String → α → String)
    (ob : Option (String × SortDir)) (l : List α) : List α :=
  match ob with
  | Option.none => l
  | some (col, SortDir.asc) =>
      l.mergeSort (fun a b => decide (keyOf col a ≤ keyOf col b))
  | some (col, SortDir.desc) =>
      l.mergeSort (fun a b => decide (keyOf col b ≤ keyOf col a))

/-- What `getattr` finds on the model class for a given name: an
instrumented column attribute (which supports `.asc()`/`.desc()`), or
some other class attribute (table name, metadata, registry, inherited
object attributes — none of which has `.asc()`/`.desc()`). -/
inductive ModelAttr where
  | column (name : String)
  | nonColumn (value : String)
deriving DecidableEq, Repr

/-- The attribute table of a model class: `getattr(model, name, None)`
returns `None` exactly when the lookup yields `Option.none`. -/
def ModelEnv : Type := String → Option ModelAttr

/-- A partial model of the attribute table of the `User` declarative
class: the eleven instrumented columns, and the non-column class
attributes consulted by the theorems below (`__tablename__` resolves to
the string `"users"`, `metadata` and `registry` to SQLAlchemy objects).
The class's remaining inherited attributes (dunders such as `__init__`)
are likewise non-columns but are omitted here; no theorem relies on
their absence — results quantify over the environment, or consult this
one only at names where it is exact (such as `bogus`, which really is
not an attribute of the class). -/
def userGetattr : ModelEnv := fun name =>
  if name ∈ userModelFields then some (ModelAttr.column name)
  else if name = "__tablename__" then some (ModelAttr.nonColumn ("users"))
  else if name = "metadata" then some (ModelAttr.nonColumn ("MetaData"))
  else if name = "registry" then some (ModelAttr.nonColumn ("registry"))
  else Option.none

/-- Embedding of `build_order_by` from `utils.py` over the full attribute
table, with the raised-exception outcome explicit: a falsy `sort_by`
(absent or empty) returns `None` before any lookup; an absent attribute
returns `None` (the `getattr` default makes `column is None` true); a
column attribute yields the comparator chosen by
`sort_order.lower() == "desc"`; a non-column attribute reaches
`column.desc()` / `column.asc()` and raises `AttributeError`. -/
def build_order_byE (model : ModelEnv) (sort_by : Option String)
    (sort_order : String) : Except String (Option (String × SortDir)) :=
  match sort_by with
  | Option.none => Except.ok Option.none
  | some sb =>
    if sb = "" then Except.ok Option.none
    else
      match model sb with
      | Option.none => Except.ok Option.none
      | some (ModelAttr.column c) =>
          Except.ok (if pyLower sort_order = "desc" then some (c, SortDir.desc)
            else some (c, SortDir.asc))
      | some (ModelAttr.nonColumn v) =>
          Except.error ("AttributeError: " ++ v ++ " has no attribute asc or desc")

/-- The sort stage of `get_users` with the exception outcome threaded
through: a raised `AttributeError` propagates, otherwise the resolved
ordering (or none) is applied to the record list. -/
def userSortStepE (model : ModelEnv) (query : List UserRec)
    (sort_by : Option String) (sort_order : String) :
    Except String (List UserRec) :=
  match build_order_byE model sort_by sort_order with
  | Except.error e => Except.error e
  | Except.ok ob => Except.ok (applyOrder userKey ob query)

/-- Agreement of the restricted lookup with the full one: on a column
name the total `build_order_by` computes exactly the value the
exception-aware embedding returns. -/
theorem build_order_byE_column_agrees (f d : String)
    (hf : f ∈ userModelFields) (hne : f ≠ "") :
    build_order_byE userGetattr (some f) d
      = Except.ok (build_order_by userModelFields (some f) d) := by
  simp [build_order_byE, build_order_by, getattrOrNone, userGetattr, hf, hne]

/-- C5: a sort field name that is not an attribute of the record schema —
the class's attribute lookup yields `None` — makes `build_order_by`
return no comparator without raising, and the listing then leaves the
record list in its original order: a silent fallback, not an error.
Stated for every attribute environment at every name its lookup misses;
the witness instantiates it on the `User` model at `bogus`. -/
theorem C5_unknown_sort_field_noop (m : ModelEnv) (R : List UserRec)
    (f d : String) (hf : m f = Option.none) :
    build_order_byE m (some f) d = Except.ok Option.none ∧
    userSortStepE m R (some f) d = Except.ok R := by
  have hb : build_order_byE m (some f) d = Except.ok Option.none := by
    by_cases hfe : f = ""
    · simp [build_order_byE, hfe]
    · simp [build_order_byE, hfe, hf]
  exact ⟨hb, by simp [userSortStepE, hb, applyOrder]⟩

theorem C5_unknown_sort_field_noop_witness :
    (userGetattr ("bogus") = Option.none) ∧
    build_order_byE userGetattr (some ("bogus")) ("asc")
      = Except.ok Option.none ∧
    userSortStepE userGetattr [⟨"u-1", "Ada", "Lovelace", "ada",
      "ada@example.com", some ("555-0100"), "active", "admin"⟩]
      (some ("bogus")) ("asc")
      = Except.ok [⟨"u-1", "Ada", "Lovelace", "ada", "ada@example.com",
          some ("555-0100"), "active", "admin"⟩] :=
  ⟨by decide,
    C5_unknown_sort_field_noop userGetattr
      [⟨"u-1", "Ada", "Lovelace", "ada", "ada@example.com",
        some ("555-0100"), "active", "admin"⟩] ("bogus") ("asc") (by decide)⟩

/-- C6: direction parsing is case-insensitive — for a schema field the
resolver yields the descending comparator exactly when the direction
string lowercases to the descending token, and yields the ascending
comparator for every other direction string, never rejecting one. -/
theorem C6_direction_parsing (f d : String) (hf : f ∈ userModelFields) :
    (build_order_by userModelFields (some f) d = some (f, SortDir.desc)
        ↔ pyLower d = "desc") ∧
    (pyLower d ≠ "desc" →
      build_order_by userModelFields (some f) d = some (f, SortDir.asc)) := by
  have hne : ¬ f = "" := by
    rintro rfl
    revert hf
    decide
  have hb : build_order_by userModelFields (some f) d
      = (if pyLower d = "desc" then some (f, SortDir.desc)
          else some (f, SortDir.asc)) := by
    simp [build_order_by, getattrOrNone, hne, hf]
  constructor
  · rw [hb]
    constructor
    · intro h
      by_contra hd
      rw [if_neg hd] at h
      simp at h
    · intro h
      rw [if_pos h]
  · intro hd
    rw [hb, if_neg hd]

theorem C6_direction_parsing_witness :
    ("username" ∈ userModelFields) ∧
    build_order_by userModelFields (some ("username")) ("DESC")
      = some ("username", SortDir.desc) ∧
    build_order_by userModelFields (some ("username")) ("upward")
      = some ("username", SortDir.asc) :=
  ⟨by decide,
    (C6_direction_parsing ("username") ("DESC") (by decide)).1.mpr (by decide),
    (C6_direction_parsing ("username") ("upward") (by decide)).2 (by decide)⟩

/-- A dynamically-typed Python value, as passed to the envelope builders
and the request-level arguments of the core functions. -/
inductive Py where
  | pynone : Py
  | int (n : Int) : Py
  | str (s : String) : Py
  | bool (b : Bool) : Py
  | list (xs : List Py) : Py

/-- The `data is not None` test of `create_response`. -/
def Py.isNone : Py → Bool
  | Py.pynone => true
  | _ => false

/-- Embedding of `create_response` from `utils.py` (source defaults:
`data = None`, `message = "success"`, `code = 200`, `success = True`).
The response dict is an association list in insertion order; the `data`
key is added only when the payload is not `None`. -/
def create_response (data : Py) (message : String) (code : Int)
    (success : Bool) : List (String × Py) :=
  let response := [("code", Py.int code), ("message", Py.str message),
    ("success", Py.bool success)]
  if data.isNone then response else response ++ [("data", data)]

/-- Embedding of `create_paginated_response` from `utils.py`: a dict with
the seven keys in the source's insertion order. -/
def create_paginated_response (items : List Py) (total : Int) (page : Int)
    (page_size : Int) (message : String) (code : Int) (success : Bool) :
    List (String × Py) :=
  [("code", Py.int code), ("message", Py.str message),
    ("success", Py.bool success), ("data", Py.list items),
    ("total", Py.int total), ("page", Py.int page),
    ("pageSize", Py.int page_size)]

/-- C8: `create_response` at its defaults (absent payload) produces a dict
whose keys are exactly code, message, success — no payload key at all —
with values 200, "success", True; and `create_paginated_response` always
carries the data, total, page and pageSize keys besides those three, even
for an empty payload list. -/
theorem C8_envelope_keys :
    create_response Py.pynone ("success") 200 true
      = [("code", Py.int 200), ("message", Py.str ("success")),
          ("success", Py.bool true)] ∧
    (create_response Py.pynone ("success") 200 true).map Prod.fst
      = ["code", "message", "success"] ∧
    (∀ (items : List Py) (total page page_size : Int) (message : String)
        (code : Int) (success : Bool),
      (create_paginated_response items total page page_size message code
          success).map Prod.fst
        = ["code", "message", "success", "data", "total", "page", "pageSize"]) :=
  ⟨rfl, rfl, fun _ _ _ _ _ _ _ => rfl⟩

/-- C10: the data key is omitted exactly when the payload is `None`; every
non-`None` payload — the empty list, the empty string, zero and `False`
included — appears in the envelope bound to the exact payload value. -/
theorem C10_data_key_iff_payload (v : Py) (message : String) (code : Int)
    (success : Bool) :
    (v.isNone = false →
      (create_response v message code success).lookup ("data") = some v) ∧
    (v.isNone = true →
      (create_response v message code success).lookup ("data") = Option.none) ∧
    (v.isNone = true →
      (create_response v message code success).map Prod.fst
        = ["code", "message", "success"]) := by
  refine ⟨fun h => ?_, fun h => ?_, fun h => ?_⟩ <;>
    simp [create_response, h, List.lookup]

theorem C10_data_key_iff_payload_witness :
    ((Py.list []).isNone = false ∧
      (create_response (Py.list []) ("m") 0 false).lookup ("data")
        = some (Py.list [])) ∧
    ((Py.str ("")).isNone = false ∧
      (create_response (Py.str ("")) ("m") 0 false).lookup ("data")
        = some (Py.str (""))) ∧
    (Py.pynone.isNone = true ∧
      (create_response Py.pynone ("m") 0 false).lookup ("data")
        = Option.none) :=
  ⟨⟨rfl, (C10_data_key_iff_payload (Py.list []) ("m") 0 false).1 rfl⟩,
    ⟨rfl, (C10_data_key_iff_payload (Py.str ("")) ("m") 0 false).1 rfl⟩,
    ⟨rfl, (C10_data_key_iff_payload Py.pynone ("m") 0 false).2.1 rfl⟩⟩

/-- Result of a Python call: either a returned value or a raised
exception. -/
def PyResult (α : Type) : Type := Except String α

/-- Whether a Python call returned normally. -/
def isOk {α : Type} : PyResult α → Bool
  | Except.ok _ => true
  | Except.error _ => false

/-- `paginate_query` over dynamically-typed arguments: the integer
comparisons and arithmetic on `page`/`page_size`/`max_page_size` raise
`TypeError` unless all three are integers; for integers the function is
the total clamping computation above. -/
def paginate_queryP (query : List Py) (page : Py) (page_size : Py)
    (max_page_size : Py) : PyResult (List Py × Nat) :=
  match page, page_size, max_page_size with
  | Py.int p, Py.int s, Py.int m => Except.ok (paginate_query query p s m)
  | _, _, _ => Except.error "TypeError: order comparison on non-integers"

/-- `create_response` over a dynamically-typed payload: dict construction
and the `is not None` test cannot raise, for any payload. -/
def create_responseP (data : Py) (message : String) (code : Int)
    (success : Bool) : PyResult (List (String × Py)) :=
  Except.ok (create_response data message code success)

/-- `create_paginated_response` never raises either. -/
def create_paginated_responseP (items : List Py) (total : Int) (page : Int)
    (page_size : Int) (message : String) (code : Int) (success : Bool) :
    PyResult (List (String × Py)) :=
  Except.ok (create_paginated_response items total page page_size message
    code success)

/-- C9 counterexample: a well-typed string sort field on which the core
does raise — `__tablename__` is an attribute of the `User` class that is
not a column (it resolves to the string value `"users"`), so
`build_order_by(User, "__tablename__", "asc")` reaches `"users".asc()`
and raises `AttributeError` instead of returning a value. -/
theorem C9_counterexample :
    ¬ (isOk (build_order_byE userGetattr (some ("__tablename__")) ("asc"))
        = true) := by
  decide

/-- C9 amended: `paginate_query` (on integer page arguments),
`create_response` and `create_paginated_response` return normally on
every well-typed input, and `build_order_by` returns normally whenever
the sort field is absent, empty, not an attribute of the model, or
resolves to a column — but a non-empty sort field resolving to a
non-column class attribute makes `build_order_by` raise
`AttributeError`, so the core is not exception-free on every well-typed
input. -/
theorem C9_amended_no_exception_except_non_column_sort (R : List Py)
    (p s : Int) (m : ModelEnv) (f so : String) (d : Py) (message : String)
    (code : Int) (success : Bool) (items : List Py) (total pg ps : Int) :
    isOk (paginate_queryP R (Py.int p) (Py.int s) (Py.int 100)) = true ∧
    isOk (create_responseP d message code success) = true ∧
    isOk (create_paginated_responseP items total pg ps message code success)
      = true ∧
    isOk (build_order_byE m Option.none so) = true ∧
    (m f = Option.none → isOk (build_order_byE m (some f) so) = true) ∧
    (∀ c, m f = some (ModelAttr.column c) →
      isOk (build_order_byE m (some f) so) = true) ∧
    (∀ v, f ≠ "" → m f = some (ModelAttr.nonColumn v) →
      isOk (build_order_byE m (some f) so) = false) := by
  refine ⟨rfl, rfl, rfl, rfl, fun hf => ?_, fun c hc => ?_,
    fun v hfe hv => ?_⟩
  · by_cases hfe : f = "" <;> simp [build_order_byE, hfe, hf, isOk]
  · by_cases hfe : f = "" <;> simp [build_order_byE, hfe, hc, isOk]
  · simp [build_order_byE, hfe, hv, isOk]

theorem C9_amended_witness :
    (userGetattr ("bogus") = Option.none ∧
      isOk (build_order_byE userGetattr (some ("bogus")) ("asc")) = true) ∧
    (userGetattr ("username") = some (ModelAttr.column ("username")) ∧
      isOk (build_order_byE userGetattr (some ("username")) ("DESC"))
        = true) ∧
    (("__tablename__" : String) ≠ "" ∧
      userGetattr ("__tablename__") = some (ModelAttr.nonColumn ("users")) ∧
      isOk (build_order_byE userGetattr (some ("__tablename__")) ("asc"))
        = false) :=
  ⟨⟨by decide,
      (C9_amended_no_exception_except_non_column_sort [] 1 1 userGetattr
        ("bogus") ("asc") Py.pynone ("") 0 true [] 0 0 0).2.2.2.2.1
        (by decide)⟩,
    ⟨by decide,
      (C9_amended_no_exception_except_non_column_sort [] 1 1 userGetattr
        ("username") ("DESC") Py.pynone ("") 0 true [] 0 0 0).2.2.2.2.2.1
        ("username") (by decide)⟩,
    ⟨by decide, by decide,
      (C9_amended_no_exception_except_non_column_sort [] 1 1 userGetattr
        ("__tablename__") ("asc") Py.pynone ("") 0 true [] 0 0 0).2.2.2.2.2.2
        ("users") (by decide) (by decide)⟩⟩

end Mocker
